import Mathlib

/-!
Verification of the skeleton-generation pipeline of `libbpf-cargo`
(`src/libbpf-cargo/src/gen.rs`), shallowly embedded in Lean.

Conventions of the embedding:
* A C string returned through FFI is modelled by `RawName`: a null
  pointer, invalid UTF-8 bytes, or a valid Rust `String`.
* Fallible Rust functions returning `Result` become `Except GenError`.
  A Rust panic (`assert!`, `unwrap` on `None`) inside a fallible
  context is modelled as an `Except.error` as well.
* Rust `str::ends_with` is suffix matching on the character list.
* External collaborators that live outside `gen.rs` (libbpf FFI object
  opening, `crate::btf`, `crate::metadata`, `rustfmt`, file I/O) are
  modelled as explicit parameters; file writes are returned as data.
-/

namespace LibbpfGen

/-- Outcome of reading a C string name through the FFI: the pointer may
be null, the bytes may fail UTF-8 validation, or a valid string comes
back. -/
inductive RawName where
  | nullPtr : RawName
  | invalidUtf8 : RawName
  | valid : String → RawName
deriving DecidableEq, Repr

/-- `true` exactly when the name is retrievable as valid text. -/
def RawName.isValidText : RawName → Bool
  | .valid _ => true
  | _ => false

/-- Errors reported during generation (the `anyhow` error of the
source, carried as its message). -/
abbrev GenError := String

/-- A BPF map as seen through the introspection calls used by `gen.rs`:
`bpf_map__name`, `bpf_map__is_internal` and `bpf_map__def().map_flags`. -/
structure BpfMap where
  rawName : RawName
  isInternal : Bool
  mapFlags : Nat
deriving DecidableEq, Repr

/-- A BPF program as seen through `bpf_program__name`. -/
structure BpfProg where
  progName : RawName
deriving DecidableEq, Repr

/-- The opened object: ordered sequences of maps and programs, as the
`MapIter`/`ProgIter` iterators of the source produce them. -/
structure BpfObject where
  maps : List BpfMap
  progs : List BpfProg
deriving DecidableEq, Repr

/-- `BPF_F_RDONLY_PROG` from the kernel ABI: bit 7. -/
def BPF_F_RDONLY_PROG : Nat := 128

/-- `BPF_F_MMAPABLE` from the kernel ABI: bit 10. -/
def BPF_F_MMAPABLE : Nat := 1024

/-- Rust `str::ends_with`: the suffix character list is a suffix of the
string's character list. -/
def strEndsWith (s suf : String) : Bool :=
  decide (suf.data <:+ s.data)

/-- `get_raw_map_name` of `gen.rs`: bails when the name pointer is null
and propagates the UTF-8 validation error otherwise. -/
def get_raw_map_name (m : BpfMap) : Except GenError String :=
  match m.rawName with
  | .nullPtr => .error "Map name unknown"
  | .invalidUtf8 => .error "invalid utf-8 sequence"
  | .valid s => .ok s

/-- `canonicalize_internal_map_name` of `gen.rs`: the four recognized
suffixes map to fixed canonical names, anything else warns and yields
`none`. -/
def canonicalize_internal_map_name (s : String) : Option String :=
  if strEndsWith s ".data" then some "data"
  else if strEndsWith s ".rodata" then some "rodata"
  else if strEndsWith s ".bss" then some "bss"
  else if strEndsWith s ".kconfig" then some "kconfig"
  else none

/-- `get_map_name` of `gen.rs`: raw name for non-internal maps,
canonicalized name (possibly `none`, meaning skip) for internal ones. -/
def get_map_name (m : BpfMap) : Except GenError (Option String) := do
  let name ← get_raw_map_name m
  if !m.isInternal then
    return some name
  else
    return canonicalize_internal_map_name name

/-- `get_prog_name` of `gen.rs`. -/
def get_prog_name (p : BpfProg) : Except GenError String :=
  match p.progName with
  | .nullPtr => .error "Prog name unknown"
  | .invalidUtf8 => .error "invalid utf-8 sequence"
  | .valid s => .ok s

/-- `map_is_mmapable` of `gen.rs`: internal, `BPF_F_MMAPABLE` set, and
the canonical name resolves (`name.is_ok() && name.unwrap().is_some()`). -/
def map_is_mmapable (m : BpfMap) : Bool :=
  let internal := m.isInternal
  let mmapable := m.mapFlags &&& BPF_F_MMAPABLE
  let name := get_map_name m
  internal && decide (mmapable > 0) &&
    (match name with
     | .ok (some _) => true
     | _ => false)

/-- `map_is_readonly` of `gen.rs`. The source begins with
`assert!(map_is_mmapable(map))`; the panic of a failed assertion is
modelled by `none`, and the normal boolean result by `some`. -/
def map_is_readonly (m : BpfMap) : Option Bool :=
  if map_is_mmapable m then
    some (decide (m.mapFlags &&& BPF_F_RDONLY_PROG > 0))
  else
    none

/-! ### Skeleton text generators

Each `gen_skel_*` function of the source appends text to a `skel`
string buffer; here each one returns the chunk it appends, and
`gen_skel_contents` concatenates the chunks in source order. Loops over
the map/program iterators become structural recursion over the lists.
Literal braces of the generated Rust text are written `\x7b`/`\x7d` and
apostrophes `\x27`. -/

/-- Map loop of `gen_skel_c_skel_constructor`: one `.map(name, mmaped)`
builder call per map, the raw name fetch propagating its error. -/
def cskel_maps_go : List BpfMap → Except GenError String
  | [] => .ok ""
  | map :: rest => do
    let raw_name ← get_raw_map_name map
    let mmaped := if map_is_mmapable map then "true" else "false"
    let restS ← cskel_maps_go rest
    return ("\n.map(\"" ++ raw_name ++ "\", " ++ mmaped ++ ")\n") ++ restS

/-- Program loop of `gen_skel_c_skel_constructor`: one `.prog(name)`
builder call per program. -/
def cskel_progs_go : List BpfProg → Except GenError String
  | [] => .ok ""
  | prog :: rest => do
    let name ← get_prog_name prog
    let restS ← cskel_progs_go rest
    return ("\n.prog(\"" ++ name ++ "\")\n") ++ restS

/-- `gen_skel_c_skel_constructor` of `gen.rs`. -/
def gen_skel_c_skel_constructor (maps : List BpfMap) (progs : List BpfProg)
    (name : String) : Except GenError String := do
  let head :=
    "\nfn build_skel_config() -> libbpf_rs::Result<libbpf_rs::skeleton::ObjectSkeletonConfig<\x27static>>\n\x7b\nlet mut builder = libbpf_rs::skeleton::ObjectSkeletonConfigBuilder::new(DATA);\nbuilder\n.name(\"" ++ name ++ "\")\n"
  let ms ← cskel_maps_go maps
  let ps ← cskel_progs_go progs
  return head ++ ms ++ ps ++ ";\n" ++ "\nbuilder.build()\n\x7d\n"

/-- Body loop of `gen_skel_map_defs`: an accessor per non-mmapable map
whose canonical name resolves. -/
def map_defs_go (return_ty : String) : List BpfMap → Except GenError String
  | [] => .ok ""
  | map :: rest => do
    if map_is_mmapable map then
      map_defs_go return_ty rest
    else
      match ← get_map_name map with
      | none => map_defs_go return_ty rest
      | some map_name => do
        let raw ← get_raw_map_name map
        let restS ← map_defs_go return_ty rest
        return ("\npub fn " ++ map_name ++ "(&mut self) -> &mut " ++ return_ty ++
          " \x7b\nself.inner.map_unwrap(\"" ++ raw ++ "\")\n\x7d\n") ++ restS

/-- `gen_skel_map_defs` of `gen.rs`: emits nothing when every map is
mmapable, otherwise a `Maps` struct with one accessor per remaining
map. -/
def gen_skel_map_defs (maps : List BpfMap) (obj_name : String)
    (opened : Bool) : Except GenError String := do
  if (maps.filter fun map => !map_is_mmapable map).length == 0 then
    return ""
  else
    let (struct_name, inner_ty, return_ty) :=
      if opened then
        ("Open" ++ obj_name ++ "Maps", "libbpf_rs::OpenObject", "libbpf_rs::OpenMap")
      else
        (obj_name ++ "Maps", "libbpf_rs::Object", "libbpf_rs::Map")
    let body ← map_defs_go return_ty maps
    return ("\npub struct " ++ struct_name ++ "<\x27a> \x7b\ninner: &\x27a mut " ++
      inner_ty ++ ",\n\x7d\n\nimpl<\x27a> " ++ struct_name ++ "<\x27a> \x7b\n") ++
      body ++ "\x7d\n"

/-- Body loop of `gen_skel_prog_defs`: one accessor per program. -/
def prog_defs_go (return_ty : String) : List BpfProg → Except GenError String
  | [] => .ok ""
  | prog :: rest => do
    let prog_name ← get_prog_name prog
    let restS ← prog_defs_go return_ty rest
    return ("\npub fn " ++ prog_name ++ "(&mut self) -> &mut " ++ return_ty ++
      " \x7b\nself.inner.prog_unwrap(\"" ++ prog_name ++ "\")\n\x7d\n") ++ restS

/-- `gen_skel_prog_defs` of `gen.rs`: emits nothing when there are no
programs. -/
def gen_skel_prog_defs (progs : List BpfProg) (obj_name : String)
    (opened : Bool) : Except GenError String := do
  if progs.isEmpty then
    return ""
  else
    let (struct_name, inner_ty, return_ty) :=
      if opened then
        ("Open" ++ obj_name ++ "Progs", "libbpf_rs::OpenObject", "libbpf_rs::OpenProgram")
      else
        (obj_name ++ "Progs", "libbpf_rs::Object", "libbpf_rs::Program")
    let body ← prog_defs_go return_ty progs
    return ("\npub struct " ++ struct_name ++ "<\x27a> \x7b\ninner: &\x27a mut " ++
      inner_ty ++ ",\n\x7d\n\nimpl<\x27a> " ++ struct_name ++ "<\x27a> \x7b\n") ++
      body ++ "\x7d\n"

/-- One BTF type as far as `gen_skel_datasec_defs` inspects it: either a
data section carrying its name, or anything else. -/
inductive BtfType where
  | datasec : String → BtfType
  | other : BtfType

/-- Modelled from the spec: the type-graph resolver (`crate::btf`, not
under `src/`). `gen_skel_datasec_defs` only consumes the type list and
the per-index renderer `type_definition`, so those are the fields. -/
structure Btf where
  types : List BtfType
  type_definition : Nat → Except GenError String

/-- Loop of `gen_skel_datasec_defs` over the enumerated BTF types:
data sections with a recognized canonical name become one named
sub-module wrapping the rendered type definition. -/
def datasec_defs_go (btf : Btf) (obj_name : String) :
    List (Nat × BtfType) → Except GenError String
  | [] => .ok ""
  | (idx, ty) :: rest =>
    match ty with
    | .other => datasec_defs_go btf obj_name rest
    | .datasec dname =>
      match canonicalize_internal_map_name dname with
      | none => datasec_defs_go btf obj_name rest
      | some sec_ident => do
        let sec_def ← btf.type_definition idx
        let restS ← datasec_defs_go btf obj_name rest
        return ("\npub mod " ++ obj_name ++ "_" ++ sec_ident ++ "_types \x7b\n") ++
          sec_def ++ "\x7d\n" ++ restS

/-- `gen_skel_datasec_defs` of `gen.rs`. Its first step is
`btf::Btf::new(obj_name, object)?`, whose outcome (error, no BTF
present, or a `Btf`) is passed in as `btfNew`; `Ok(None)` — no embedded
type metadata — returns success emitting nothing. -/
def gen_skel_datasec_defs (btfNew : Except GenError (Option Btf))
    (obj_name : String) : Except GenError String := do
  match ← btfNew with
  | none => return ""
  | some btf => datasec_defs_go btf obj_name btf.types.enum

/-- One generated data-section accessor of `gen_skel_datasec_getters`:
its name, the types-module-qualified struct it returns, the mutability
keyword (`"mut"` or `""`) of the returned reference, and the map index
passed to `map_mmap_ptr`. -/
structure DatasecGetter where
  name : String
  structName : String
  mutKeyword : String
  idx : Nat
deriving DecidableEq, Repr

/-- Loop of `gen_skel_datasec_getters` over the enumerated maps,
returning the emitted accessors in order. The mutability is `""`
(immutable) exactly when `loaded && map_is_readonly(map)`; the
short-circuit of `&&` is preserved, and the `assert!` inside
`map_is_readonly` panicking is an error. -/
def datasec_getters_go (obj_name : String) (loaded : Bool) :
    List (Nat × BpfMap) → Except GenError (List DatasecGetter)
  | [] => .ok []
  | (idx, map) :: rest =>
    if !map_is_mmapable map then
      datasec_getters_go obj_name loaded rest
    else
      match get_map_name map with
      | .error e => .error e
      | .ok none => datasec_getters_go obj_name loaded rest
      | .ok (some name) =>
        let struct_name := obj_name ++ "_" ++ name ++ "_types::" ++ name
        let mres : Except GenError String :=
          if loaded then
            match map_is_readonly map with
            | some true => .ok ""
            | some false => .ok "mut"
            | none => .error "assertion failed: map_is_mmapable(map)"
          else .ok "mut"
        match mres with
        | .error e => .error e
        | .ok mutability =>
          match datasec_getters_go obj_name loaded rest with
          | .error e => .error e
          | .ok items =>
            .ok ({ name := name, structName := struct_name,
                   mutKeyword := mutability, idx := idx } :: items)

/-- The accessors `gen_skel_datasec_getters` emits, structured. -/
def datasec_getter_items (maps : List BpfMap) (obj_name : String)
    (loaded : Bool) : Except GenError (List DatasecGetter) :=
  datasec_getters_go obj_name loaded maps.enum

/-- Text of one data-section accessor. -/
def render_datasec_getter (g : DatasecGetter) : String :=
  "\npub fn " ++ g.name ++ "(&mut self) -> &\x27a " ++ g.mutKeyword ++ " " ++
    g.structName ++ " \x7b\nunsafe \x7b\nstd::mem::transmute::<*mut std::ffi::c_void, &\x27a " ++
    g.mutKeyword ++ " " ++ g.structName ++ ">(\nself.skel_config.map_mmap_ptr(" ++
    toString g.idx ++ ").unwrap()\n)\n\x7d\n\x7d\n"

/-- `gen_skel_datasec_getters` of `gen.rs`. -/
def gen_skel_datasec_getters (maps : List BpfMap) (obj_name : String)
    (loaded : Bool) : Except GenError String := do
  let items ← datasec_getter_items maps obj_name loaded
  return String.join (items.map render_datasec_getter)

/-- `gen_skel_map_getter` of `gen.rs`: no `maps()` getter at all when
every map is mmapable. -/
def gen_skel_map_getter (maps : List BpfMap) (obj_name : String)
    (opened : Bool) : Except GenError String := do
  if (maps.filter fun map => !map_is_mmapable map).length == 0 then
    return ""
  else
    let return_ty := if opened then "Open" ++ obj_name ++ "Maps" else obj_name ++ "Maps"
    return "\npub fn maps(&mut self) -> " ++ return_ty ++ " \x7b\n" ++ return_ty ++
      " \x7b\ninner: &mut self.obj,\n\x7d\n\x7d\n"

/-- `gen_skel_prog_getter` of `gen.rs`: no `progs()` getter when there
are no programs. -/
def gen_skel_prog_getter (progs : List BpfProg) (obj_name : String)
    (opened : Bool) : Except GenError String := do
  if progs.isEmpty then
    return ""
  else
    let return_ty := if opened then "Open" ++ obj_name ++ "Progs" else obj_name ++ "Progs"
    return "\npub fn progs(&mut self) -> " ++ return_ty ++ " \x7b\n" ++ return_ty ++
      " \x7b\ninner: &mut self.obj,\n\x7d\n\x7d\n"

/-- Field loop of `gen_skel_link_defs`: one optional link per program. -/
def link_defs_go : List BpfProg → Except GenError String
  | [] => .ok ""
  | prog :: rest => do
    let name ← get_prog_name prog
    let restS ← link_defs_go rest
    return ("pub " ++ name ++ ": Option<libbpf_rs::Link>,\n") ++ restS

/-- `gen_skel_link_defs` of `gen.rs`: emits the `Links` record type
only when at least one program exists. -/
def gen_skel_link_defs (progs : List BpfProg) (obj_name : String) :
    Except GenError String := do
  if progs.isEmpty then
    return ""
  else
    let body ← link_defs_go progs
    return ("\n#[derive(Default)]\npub struct " ++ obj_name ++ "Links \x7b\n") ++
      body ++ "\x7d\n"

/-- `gen_skel_link_getter` of `gen.rs`: emits the `links` field only
when at least one program exists. -/
def gen_skel_link_getter (progs : List BpfProg) (obj_name : String) :
    Except GenError String := do
  if progs.isEmpty then
    return ""
  else
    return "pub links: " ++ obj_name ++ "Links,\n"

/-- Per-program loop of `gen_skel_attach`: one link-populating field
initializer per program. -/
def attach_links_go (start : Nat) : List BpfProg → Except GenError String
  | [] => .ok ""
  | prog :: rest => do
    let prog_name ← get_prog_name prog
    let restS ← attach_links_go (start + 1) rest
    return (prog_name ++ ": (|| \x7b\nlet ptr = self.skel_config.prog_link_ptr(" ++
      toString start ++ ")?;\nif ptr.is_null() \x7b\nOk(None)\n\x7d else \x7b\nOk(Some(unsafe \x7b libbpf_rs::Link::from_ptr(ptr) \x7d))\n\x7d\n\x7d)()?,\n") ++ restS

/-- `gen_skel_attach` of `gen.rs`: emits the `attach()` operation only
when at least one program exists. -/
def gen_skel_attach (progs : List BpfProg) (obj_name : String) :
    Except GenError String := do
  if progs.isEmpty then
    return ""
  else
    let body ← attach_links_go 0 progs
    return ("\npub fn attach(&mut self) -> libbpf_rs::Result<()> \x7b\nlet ret = unsafe \x7b libbpf_sys::bpf_object__attach_skeleton(self.skel_config.get()) \x7d;\nif ret != 0 \x7b\nreturn Err(libbpf_rs::Error::System(-ret));\n\x7d\n\nself.links = " ++
      obj_name ++ "Links \x7b\n") ++ body ++ "\n\x7d;\n\nOk(())\n\x7d\n"

/-!  ### Whole-skeleton assembly -/

/-- `capitalize_first_letter` of `gen.rs`: split on `_`, uppercase each
chunk's first character and keep the rest. `chars().next().unwrap()`
panics on an empty chunk, modelled by `none`. (Rust `to_uppercase` is
approximated by `Char.toUpper`, identical on the ASCII identifiers the
generator handles.) -/
def capitalize_first_letter (s : String) : Option String :=
  if s.isEmpty then
    some ""
  else
    (s.splitOn "_").foldlM
      (fun acc ts =>
        match ts.data with
        | [] => none
        | c :: rest => some (acc ++ String.mk (c.toUpper :: rest)))
      ""

/-- Rust `{:?}` debug formatting of the embedded object bytes `&[u8]`. -/
def render_byte_slice (bytes : List Nat) : String :=
  "[" ++ String.intercalate ", " (bytes.map toString) ++ "]"

/-- Header comment and attributes opening every generated skeleton. -/
def skel_header : String :=
  "// SPDX-License-Identifier: (LGPL-2.1 OR BSD-2-Clause)\n//\n// THIS FILE IS AUTOGENERATED BY CARGO-LIBBPF-GEN!\n\n#![allow(dead_code)]\n#![allow(non_snake_case)]\n#![allow(clippy::transmute_ptr_to_ref)]\n\nuse libbpf_rs::libbpf_sys;\n"

/-- The `SkelBuilder` type and its `open()` transition. -/
def skel_builder_text (obj_name : String) : String :=
  "\n#[derive(Default)]\npub struct " ++ obj_name ++
    "SkelBuilder \x7b\npub obj_builder: libbpf_rs::ObjectBuilder,\n\x7d\n\nimpl<\x27a> " ++
    obj_name ++ "SkelBuilder \x7b\npub fn open(mut self) -> libbpf_rs::Result<Open" ++
    obj_name ++ "Skel<\x27a>> \x7b\nlet mut skel_config = build_skel_config()?;\nlet open_opts = self.obj_builder.opts(std::ptr::null());\n\nlet ret = unsafe \x7b libbpf_sys::bpf_object__open_skeleton(skel_config.get(), &open_opts) \x7d;\nif ret != 0 \x7b\nreturn Err(libbpf_rs::Error::System(-ret));\n\x7d\n\nlet obj = unsafe \x7b libbpf_rs::OpenObject::from_ptr(skel_config.object_ptr()) \x7d;\n\nOk(Open" ++
    obj_name ++ "Skel \x7b\nobj,\nskel_config\n\x7d)\n\x7d\n\x7d\n"

/-- The `links` field initializer inside `load()`: present only when
the artifact has at least one program (`gen.rs` line 706). -/
def skel_links_init (progs : List BpfProg) (obj_name : String) : String :=
  if progs.isEmpty then "" else "links: " ++ obj_name ++ "Links::default()"

/-- The `OpenSkel` type and its `load()` transition, up to the open
accessors that follow it. -/
def open_skel_text (obj_name : String) (links : String) : String :=
  "\npub struct Open" ++ obj_name ++
    "Skel<\x27a> \x7b\npub obj: libbpf_rs::OpenObject,\nskel_config: libbpf_rs::skeleton::ObjectSkeletonConfig<\x27a>,\n\x7d\n\nimpl<\x27a> Open" ++
    obj_name ++ "Skel<\x27a> \x7b\npub fn load(mut self) -> libbpf_rs::Result<" ++
    obj_name ++ "Skel<\x27a>> \x7b\nlet ret = unsafe \x7b libbpf_sys::bpf_object__load_skeleton(self.skel_config.get()) \x7d;\nif ret != 0 \x7b\nreturn Err(libbpf_rs::Error::System(-ret));\n\x7d\n\nlet obj = unsafe \x7b libbpf_rs::Object::from_ptr(self.obj.take_ptr()) \x7d;\n\nOk(" ++
    obj_name ++ "Skel \x7b\nobj,\nskel_config: self.skel_config,\n" ++ links ++ "\n\x7d)\n\x7d\n"

/-- Opening of the loaded `Skel` struct declaration. -/
def loaded_skel_struct_text (obj_name : String) : String :=
  "\npub struct " ++ obj_name ++
    "Skel<\x27a> \x7b\npub obj: libbpf_rs::Object,\nskel_config: libbpf_rs::skeleton::ObjectSkeletonConfig<\x27a>,\n"

/-- Opening of the loaded `Skel` impl block. -/
def loaded_skel_impl_text (obj_name : String) : String :=
  "\n\x7d\n\nimpl<\x27a> " ++ obj_name ++ "Skel<\x27a> \x7b\n"

/-- `gen_skel_contents` of `gen.rs`. The two FFI/foreign steps are
passed in as functions: `openObject` models `open_bpf_object` over
`bpf_object__open_mem` (`none` is the null return, reported as the
source's bail message) and `btfNew` models `btf::Btf::new` applied to
the mapped object-file bytes. -/
def gen_skel_contents (openObject : String → List Nat → Option BpfObject)
    (btfNew : String → List Nat → Except GenError (Option Btf))
    (raw_obj_name : String) (objBytes : List Nat) : Except GenError String := do
  let libbpf_obj_name := raw_obj_name ++ "_bpf"
  let obj_name ←
    match capitalize_first_letter raw_obj_name with
    | some s => Except.ok s
    | none => Except.error "panic: called Option::unwrap() on a None value"
  let object ←
    match openObject libbpf_obj_name objBytes with
    | some o => Except.ok o
    | none => Except.error "Failed to bpf_object__open_mem()"
  let cons ← gen_skel_c_skel_constructor object.maps object.progs libbpf_obj_name
  let openMapDefs ← gen_skel_map_defs object.maps obj_name true
  let openProgDefs ← gen_skel_prog_defs object.progs obj_name true
  let datasecDefs ← gen_skel_datasec_defs (btfNew raw_obj_name objBytes) raw_obj_name
  let openProgGetter ← gen_skel_prog_getter object.progs obj_name true
  let openMapGetter ← gen_skel_map_getter object.maps obj_name true
  let openDatasecGetters ← gen_skel_datasec_getters object.maps raw_obj_name false
  let mapDefs ← gen_skel_map_defs object.maps obj_name false
  let progDefs ← gen_skel_prog_defs object.progs obj_name false
  let linkDefs ← gen_skel_link_defs object.progs obj_name
  let linkGetter ← gen_skel_link_getter object.progs obj_name
  let progGetter ← gen_skel_prog_getter object.progs obj_name false
  let mapGetter ← gen_skel_map_getter object.maps obj_name false
  let datasecGetters ← gen_skel_datasec_getters object.maps raw_obj_name true
  let attach ← gen_skel_attach object.progs obj_name
  return skel_header ++ cons ++ skel_builder_text obj_name ++
    openMapDefs ++ openProgDefs ++ datasecDefs ++
    open_skel_text obj_name (skel_links_init object.progs obj_name) ++
    openProgGetter ++ openMapGetter ++ openDatasecGetters ++ "\x7d\n" ++
    mapDefs ++ progDefs ++ linkDefs ++
    loaded_skel_struct_text obj_name ++ linkGetter ++
    loaded_skel_impl_text obj_name ++
    progGetter ++ mapGetter ++ datasecGetters ++ attach ++ "\x7d\n" ++
    "\nconst DATA: &[u8] = &" ++ render_byte_slice objBytes ++ ";\n"

/-! ### Output plumbing and the project aggregator -/

/-- `OutputDest` of `gen.rs`. -/
inductive OutputDest where
  | stdout : OutputDest
  | directory : String → OutputDest

/-- One file written by the generator: its path and contents. -/
structure FileWrite where
  path : String
  contents : String
deriving DecidableEq, Repr

/-- `gen_skel` of `gen.rs`: formats the contents through `rustfmt`
(passed in as `fmt`) and either prints them or writes one `.skel.rs`
file; the returned list holds the files written. -/
def gen_skel (openObject : String → List Nat → Option BpfObject)
    (btfNew : String → List Nat → Except GenError (Option Btf))
    (fmt : String → Except GenError String)
    (name : String) (objBytes : List Nat) (out : OutputDest) :
    Except GenError (List FileWrite) := do
  if name.isEmpty then
    Except.error "Object file has no name"
  else
    let contents ← gen_skel_contents openObject btfNew name objBytes
    let skel ← fmt contents
    match out with
    | .stdout => return []
    | .directory dir => return [{ path := dir ++ "/" ++ name ++ ".skel.rs", contents := skel }]

/-- `metadata::UnprocessedObj`: logical name, path to the source-tree
location (as components, modelling `PathBuf`), owning package, and
output directory. -/
structure UnprocessedObj where
  name : String
  path : List String
  package : String
  out : List String
deriving DecidableEq, Repr

/-- `mod.rs` declaration loop of `gen_mods`. -/
def mods_decls_go : List UnprocessedObj → String
  | [] => ""
  | obj :: rest =>
    ("\n#[path = \"" ++ obj.name ++ ".skel.rs\"]\nmod " ++ obj.name ++ "_skel;\n") ++
      mods_decls_go rest

/-- `mod.rs` re-export loop of `gen_mods`. -/
def mods_uses_go : List UnprocessedObj → String
  | [] => ""
  | obj :: rest =>
    ("\npub use " ++ obj.name ++ "_skel::*;\n") ++ mods_uses_go rest

/-- `gen_mods` of `gen.rs`: with an empty object list it returns
success immediately, before any path computation or file creation;
otherwise it writes one `mod.rs` next to the first object's path. -/
def gen_mods (fmt : String → Except GenError String)
    (objs : List UnprocessedObj) : Except GenError (List FileWrite) := do
  match objs with
  | [] => return []
  | o :: _ =>
    let path := o.path.dropLast ++ ["mod.rs"]
    let contents :=
      "\n// SPDX-License-Identifier: (LGPL-2.1 OR BSD-2-Clause)\"\n//\n// THIS FILE IS AUTOGENERATED BY CARGO-LIBBPF-GEN!\n\n" ++
        mods_decls_go objs ++ mods_uses_go objs
    let fmted ← fmt contents
    return [{ path := String.intercalate "/" path, contents := fmted }]

/-- `BTreeMap` insertion used by `gen_project` to group objects by
package: keys kept in sorted order, values appended in arrival order. -/
def btree_insert (k : String) (v : UnprocessedObj) :
    List (String × List UnprocessedObj) → List (String × List UnprocessedObj)
  | [] => [(k, [v])]
  | (k2, vs) :: rest =>
    if k = k2 then (k2, vs ++ [v]) :: rest
    else if k < k2 then (k, [v]) :: (k2, vs) :: rest
    else (k2, vs) :: btree_insert k v rest

/-- The `package_objs` map `gen_project` accumulates. -/
def package_groups (objs : List UnprocessedObj) : List (String × List UnprocessedObj) :=
  objs.foldl (fun acc obj => btree_insert obj.package obj acc) []

/-- Per-object `gen_skel` loop of `gen_project`. A failure stops the
run; the `Except` error value carries the files already written before
the failing object. -/
def project_skel_loop (openObject : String → List Nat → Option BpfObject)
    (btfNew : String → List Nat → Except GenError (Option Btf))
    (fmt : String → Except GenError String)
    (readObj : List String → List Nat) :
    List UnprocessedObj → Except (List FileWrite) (List FileWrite)
  | [] => .ok []
  | obj :: rest =>
    let obj_file_path := obj.out ++ [obj.name ++ ".bpf.o"]
    let skel_dir := String.intercalate "/" obj.path.dropLast
    match gen_skel openObject btfNew fmt obj.name (readObj obj_file_path)
        (.directory skel_dir) with
    | .error _ => .error []
    | .ok ws =>
      match project_skel_loop openObject btfNew fmt readObj rest with
      | .ok rws => .ok (ws ++ rws)
      | .error rws => .error (ws ++ rws)

/-- Per-package `gen_mods` loop of `gen_project`. -/
def project_mods_loop (fmt : String → Except GenError String) :
    List (String × List UnprocessedObj) → Except (List FileWrite) (List FileWrite)
  | [] => .ok []
  | (_, objs) :: rest =>
    match gen_mods fmt objs with
    | .error _ => .error []
    | .ok ws =>
      match project_mods_loop fmt rest with
      | .ok rws => .ok (ws ++ rws)
      | .error rws => .error (ws ++ rws)

/-- `gen_project` of `gen.rs` after a successful-or-failed metadata
discovery (`crate::metadata::get`, not under `src/`, passed in as
`metadataGet`; modelled from the spec: build-metadata discovery
supplies the `UnprocessedObj` list). Returns the process exit status
and the files written. -/
def gen_project (openObject : String → List Nat → Option BpfObject)
    (btfNew : String → List Nat → Except GenError (Option Btf))
    (fmt : String → Except GenError String)
    (readObj : List String → List Nat) (debug : Bool)
    (metadataGet : Except GenError (List UnprocessedObj)) : Int × List FileWrite :=
  match metadataGet with
  | .error _ => (1, [])
  | .ok to_gen =>
    if debug && !to_gen.isEmpty then
      gen_project_body openObject btfNew fmt readObj to_gen
    else if to_gen.isEmpty then
      (1, [])
    else
      gen_project_body openObject btfNew fmt readObj to_gen
where
  /-- The generation phase of `gen_project`: all skeletons, then one
  `mod.rs` per package. -/
  gen_project_body (openObject : String → List Nat → Option BpfObject)
      (btfNew : String → List Nat → Except GenError (Option Btf))
      (fmt : String → Except GenError String)
      (readObj : List String → List Nat)
      (to_gen : List UnprocessedObj) : Int × List FileWrite :=
    match project_skel_loop openObject btfNew fmt readObj to_gen with
    | .error ws => (1, ws)
    | .ok ws =>
      match project_mods_loop fmt (package_groups to_gen) with
      | .error ws2 => (1, ws ++ ws2)
      | .ok ws2 => (0, ws ++ ws2)

/-! ### Concrete fixtures used by witnesses and counterexamples -/

/-- An internal `.data`-suffixed map with `BPF_F_MMAPABLE` and
`BPF_F_RDONLY_PROG` both set (flags `1024 + 128`). -/
def exRo : BpfMap :=
  { rawName := .valid "foo_bpf.data", isInternal := true, mapFlags := 1152 }

/-- A user-defined (non-internal) map: not mmapable. -/
def exUser : BpfMap :=
  { rawName := .valid "events", isInternal := false, mapFlags := 0 }

/-- An internal map whose raw name ends in `.rodata`. -/
def exInternalRodata : BpfMap :=
  { rawName := .valid "foo_bpf.rodata", isInternal := true, mapFlags := 1024 }

/-- A map whose name pointer is null. -/
def exBadNameMap : BpfMap :=
  { rawName := .nullPtr, isInternal := false, mapFlags := 0 }

/-- A concrete object holding only the null-named map. -/
def exBadObj : BpfObject := { maps := [exBadNameMap], progs := [] }

/-- An opener that always produces `exBadObj`. -/
def exBadOpen : String → List Nat → Option BpfObject := fun _ _ => some exBadObj

/-- An opener that always produces the empty object. -/
def exEmptyOpen : String → List Nat → Option BpfObject :=
  fun _ _ => some { maps := [], progs := [] }

/-- A BTF probe reporting that no type metadata is present. -/
def exNoBtf : String → List Nat → Except GenError (Option Btf) := fun _ _ => .ok none

/-- A formatting step that returns its input unchanged. -/
def exFmt : String → Except GenError String := fun s => .ok s

/-- A byte reader returning an empty buffer for every path. -/
def exReadObj : List String → List Nat := fun _ => []

/-! ### Basic lemmas about the embedding -/

/-- `Except.ok` bound into a continuation reduces to the continuation. -/
theorem ok_bind {α β : Type} (a : α) (f : α → Except GenError β) :
    (Except.ok a >>= f) = f a := rfl

/-- `Except.error` short-circuits a bind. -/
theorem error_bind {α β : Type} (e : GenError) (f : α → Except GenError β) :
    ((Except.error e : Except GenError α) >>= f) = Except.error e := rfl

/-- `pure` into `Except` is `Except.ok`. -/
theorem pure_eq_ok {α : Type} (a : α) :
    (pure a : Except GenError α) = Except.ok a := rfl

/-- A mmapable map's canonical name resolves: the third conjunct of
`map_is_mmapable` is the `Ok(Some(_))` test on `get_map_name`. -/
theorem map_is_mmapable_name {m : BpfMap} (h : map_is_mmapable m = true) :
    ∃ n, get_map_name m = Except.ok (some n) := by
  unfold map_is_mmapable at h
  simp only [Bool.and_eq_true] at h
  obtain ⟨-, h3⟩ := h
  cases hg : get_map_name m with
  | error e => rw [hg] at h3; simp at h3
  | ok o =>
    cases o with
    | none => rw [hg] at h3; simp at h3
    | some n => exact ⟨n, rfl⟩

/-- Two suffixes of one string compare as suffixes of each other; if
neither is a suffix of the other, a string cannot end with both. -/
theorem strEndsWith_excl {s a b : String}
    (hab : ¬ (a.data <:+ b.data)) (hba : ¬ (b.data <:+ a.data))
    (hb : strEndsWith s b = true) : strEndsWith s a = false := by
  cases hcase : strEndsWith s a with
  | false => rfl
  | true =>
    unfold strEndsWith at hcase hb
    have ha' : a.data <:+ s.data := of_decide_eq_true hcase
    have hb' : b.data <:+ s.data := of_decide_eq_true hb
    rcases Nat.le_total a.data.length b.data.length with hle | hle
    · exact absurd (List.suffix_of_suffix_length_le ha' hb' hle) hab
    · exact absurd (List.suffix_of_suffix_length_le hb' ha' hle) hba

/-- C2: for every map, `map_is_mmapable` holds iff the map is internal,
its flag bitfield has `BPF_F_MMAPABLE` set, and its canonical name
resolves (`get_map_name` returns `Ok(Some(_))`). -/
theorem mmapable_classification (m : BpfMap) :
    map_is_mmapable m = true ↔
      (m.isInternal = true ∧ 0 < m.mapFlags &&& BPF_F_MMAPABLE ∧
        ∃ n, get_map_name m = Except.ok (some n)) := by
  constructor
  · intro h
    have hname := map_is_mmapable_name h
    unfold map_is_mmapable at h
    simp only [Bool.and_eq_true, decide_eq_true_eq, gt_iff_lt] at h
    exact ⟨h.1.1, h.1.2, hname⟩
  · rintro ⟨h1, h2, n, hn⟩
    unfold map_is_mmapable
    simp only [hn, h1, Bool.and_eq_true, decide_eq_true_eq, gt_iff_lt, Bool.true_and]
    exact ⟨h2, trivial⟩

/-- C3: an internal map's raw name is canonicalized by suffix —
`.data`/`.rodata`/`.bss`/`.kconfig` map to exactly
`data`/`rodata`/`bss`/`kconfig`, any other internal name canonicalizes
to `none` while `get_map_name` still succeeds (skip, not a fatal
error), and a non-internal map's raw name is returned unchanged. -/
theorem map_name_canonicalization (m : BpfMap) (s : String)
    (hname : m.rawName = RawName.valid s) :
    (m.isInternal = false → get_map_name m = Except.ok (some s)) ∧
    (m.isInternal = true → get_map_name m = Except.ok (canonicalize_internal_map_name s)) ∧
    (strEndsWith s ".data" = true → canonicalize_internal_map_name s = some "data") ∧
    (strEndsWith s ".rodata" = true → canonicalize_internal_map_name s = some "rodata") ∧
    (strEndsWith s ".bss" = true → canonicalize_internal_map_name s = some "bss") ∧
    (strEndsWith s ".kconfig" = true → canonicalize_internal_map_name s = some "kconfig") ∧
    (strEndsWith s ".data" = false → strEndsWith s ".rodata" = false →
      strEndsWith s ".bss" = false → strEndsWith s ".kconfig" = false →
      canonicalize_internal_map_name s = none) := by
  refine ⟨?_, ?_, ?_, ?_, ?_, ?_, ?_⟩
  · intro hint
    simp [get_map_name, get_raw_map_name, hname, hint, ok_bind, pure_eq_ok]
  · intro hint
    simp [get_map_name, get_raw_map_name, hname, hint, ok_bind, pure_eq_ok]
  · intro h
    simp [canonicalize_internal_map_name, h]
  · intro h
    have h1 : strEndsWith s ".data" = false := strEndsWith_excl (by decide) (by decide) h
    simp [canonicalize_internal_map_name, h, h1]
  · intro h
    have h1 : strEndsWith s ".data" = false := strEndsWith_excl (by decide) (by decide) h
    have h2 : strEndsWith s ".rodata" = false := strEndsWith_excl (by decide) (by decide) h
    simp [canonicalize_internal_map_name, h, h1, h2]
  · intro h
    have h1 : strEndsWith s ".data" = false := strEndsWith_excl (by decide) (by decide) h
    have h2 : strEndsWith s ".rodata" = false := strEndsWith_excl (by decide) (by decide) h
    have h3 : strEndsWith s ".bss" = false := strEndsWith_excl (by decide) (by decide) h
    simp [canonicalize_internal_map_name, h, h1, h2, h3]
  · intro h1 h2 h3 h4
    simp [canonicalize_internal_map_name, h1, h2, h3, h4]

/-- Witness for C3 at the internal map named `foo_bpf.rodata`. -/
theorem map_name_canonicalization_witness :
    get_map_name exInternalRodata = Except.ok (canonicalize_internal_map_name "foo_bpf.rodata") ∧
    canonicalize_internal_map_name "foo_bpf.rodata" = some "rodata" := by
  have h := map_name_canonicalization exInternalRodata "foo_bpf.rodata" rfl
  exact ⟨h.2.1 rfl, h.2.2.2.1 (by decide)⟩

/-- C4: on a mmapable map, `map_is_readonly` returns normally
(`assert!` cannot fire) and answers `true` iff `BPF_F_RDONLY_PROG` is
set; on a non-mmapable map the assertion branch is taken (`none`), a
contract violation rather than a boolean answer. -/
theorem readonly_contract (m : BpfMap) :
    (map_is_mmapable m = true →
      (map_is_readonly m = some true ↔ 0 < m.mapFlags &&& BPF_F_RDONLY_PROG) ∧
      (map_is_readonly m).isSome = true) ∧
    (map_is_mmapable m = false → map_is_readonly m = none) := by
  constructor
  · intro h
    unfold map_is_readonly
    rw [h]
    simp [decide_eq_true_eq, gt_iff_lt]
  · intro h
    unfold map_is_readonly
    rw [h]
    simp

/-- Witness for C4: the read-only data map answers `some true`, the
user map trips the assertion (`none`). -/
theorem readonly_contract_witness :
    map_is_readonly exRo = some true ∧ map_is_readonly exUser = none := by
  constructor
  · exact ((readonly_contract exRo).1 (by decide)).1.mpr (by decide)
  · exact (readonly_contract exUser).2 (by decide)

/-- Closed form of the accessors `gen_skel_datasec_getters` emits: one
per mmapable map with resolvable canonical name, whose mutability
keyword is empty (immutable reference) exactly when generating the
loaded skeleton for a map with `BPF_F_RDONLY_PROG` set. -/
def datasec_getters_model (obj_name : String) (loaded : Bool)
    (l : List (Nat × BpfMap)) : List DatasecGetter :=
  l.filterMap fun p =>
    if map_is_mmapable p.2 then
      match get_map_name p.2 with
      | .ok (some name) =>
        some { name := name,
               structName := obj_name ++ "_" ++ name ++ "_types::" ++ name,
               mutKeyword :=
                 if loaded && decide (p.2.mapFlags &&& BPF_F_RDONLY_PROG > 0) then ""
                 else "mut",
               idx := p.1 }
      | _ => none
    else none

/-- A non-mmapable map contributes no accessor to the closed form. -/
theorem datasec_getters_model_cons_skip (obj_name : String) (loaded : Bool)
    (p : Nat × BpfMap) (rest : List (Nat × BpfMap))
    (h : map_is_mmapable p.2 = false) :
    datasec_getters_model obj_name loaded (p :: rest) =
      datasec_getters_model obj_name loaded rest := by
  simp [datasec_getters_model, List.filterMap_cons, h]

/-- A mmapable map with resolvable name contributes exactly one
accessor to the closed form. -/
theorem datasec_getters_model_cons_take (obj_name : String) (loaded : Bool)
    (idx : Nat) (m : BpfMap) (rest : List (Nat × BpfMap)) (n : String)
    (hm : map_is_mmapable m = true) (hn : get_map_name m = Except.ok (some n)) :
    datasec_getters_model obj_name loaded ((idx, m) :: rest) =
      { name := n, structName := obj_name ++ "_" ++ n ++ "_types::" ++ n,
        mutKeyword :=
          if loaded && decide (m.mapFlags &&& BPF_F_RDONLY_PROG > 0) then "" else "mut",
        idx := idx } :: datasec_getters_model obj_name loaded rest := by
  simp [datasec_getters_model, List.filterMap_cons, hm, hn]

/-- The generator loop never fails and produces exactly the closed
form: the mmapable guard ensures the canonical name resolves and the
`assert!` in `map_is_readonly` cannot fire. -/
theorem datasec_getters_go_eq (obj_name : String) (loaded : Bool) :
    ∀ l : List (Nat × BpfMap),
      datasec_getters_go obj_name loaded l =
        .ok (datasec_getters_model obj_name loaded l) := by
  intro l
  induction l with
  | nil => rfl
  | cons p rest ih =>
    obtain ⟨idx, m⟩ := p
    by_cases hm : map_is_mmapable m = true
    · obtain ⟨n, hn⟩ := map_is_mmapable_name hm
      have hro : map_is_readonly m =
          some (decide (m.mapFlags &&& BPF_F_RDONLY_PROG > 0)) := by
        simp [map_is_readonly, hm]
      rw [datasec_getters_model_cons_take obj_name loaded idx m rest n hm hn]
      unfold datasec_getters_go
      simp only [hm, hn, hro, Bool.not_true, Bool.false_eq_true, if_false, ite_false, ih]
      cases loaded with
      | false => simp
      | true =>
        cases hd : decide (m.mapFlags &&& BPF_F_RDONLY_PROG > 0) with
        | false => simp [hd]
        | true => simp [hd]
    · have hm' : map_is_mmapable m = false := by
        cases h : map_is_mmapable m with
        | false => rfl
        | true => exact absurd h hm
      rw [datasec_getters_model_cons_skip obj_name loaded (idx, m) rest hm']
      unfold datasec_getters_go
      simp [hm', ih]

/-- C1 (amended): `gen_skel_datasec_getters` always succeeds and its
accessors follow `datasec_getters_model`: each mmapable map with a
resolvable canonical name gets one accessor, immutable exactly when
generating the loaded skeleton (`loaded = true`) for a map whose flag
bitfield has `BPF_F_RDONLY_PROG` set, mutable otherwise — in
particular every opened-skeleton accessor is mutable. The
classification is computed once per map at generation time from the
flag bitfield. -/
theorem datasec_mutability (maps : List BpfMap) (obj_name : String) (loaded : Bool) :
    datasec_getter_items maps obj_name loaded =
      .ok (datasec_getters_model obj_name loaded maps.enum) :=
  datasec_getters_go_eq obj_name loaded maps.enum

/-- C1 counterexample: `exRo` is mmapable with `BPF_F_RDONLY_PROG` set,
yet the accessor generated for the opened skeleton (`loaded = false`)
is the mutable one (`mut` keyword), not the immutable view the claim
requires in every skeleton state. -/
theorem datasec_mutability_counterexample :
    map_is_mmapable exRo = true ∧ map_is_readonly exRo = some true ∧
    datasec_getter_items [exRo] "foo" false =
      .ok [{ name := "data", structName := "foo_data_types::data",
             mutKeyword := "mut", idx := 0 }] ∧
    "mut" ≠ "" := by
  refine ⟨by decide, by decide, rfl, by decide⟩

/-- A name that is not valid text makes `get_raw_map_name` bail. -/
theorem get_raw_map_name_error {m : BpfMap} (h : m.rawName.isValidText = false) :
    ∃ e, get_raw_map_name m = Except.error e := by
  cases hr : m.rawName with
  | nullPtr => exact ⟨"Map name unknown", by simp [get_raw_map_name, hr]⟩
  | invalidUtf8 => exact ⟨"invalid utf-8 sequence", by simp [get_raw_map_name, hr]⟩
  | valid s => rw [hr] at h; simp [RawName.isValidText] at h

/-- A name that is not valid text makes `get_prog_name` bail. -/
theorem get_prog_name_error {p : BpfProg} (h : p.progName.isValidText = false) :
    ∃ e, get_prog_name p = Except.error e := by
  cases hr : p.progName with
  | nullPtr => exact ⟨"Prog name unknown", by simp [get_prog_name, hr]⟩
  | invalidUtf8 => exact ⟨"invalid utf-8 sequence", by simp [get_prog_name, hr]⟩
  | valid s => rw [hr] at h; simp [RawName.isValidText] at h

/-- The constructor's map loop fails as soon as any map name is bad. -/
theorem cskel_maps_go_error {maps : List BpfMap}
    (h : ∃ m ∈ maps, m.rawName.isValidText = false) :
    ∃ e, cskel_maps_go maps = Except.error e := by
  induction maps with
  | nil => simp at h
  | cons m rest ih =>
    obtain ⟨m', hmem, hbad⟩ := h
    rcases List.mem_cons.mp hmem with heq | hmem'
    · subst heq
      obtain ⟨e, he⟩ := get_raw_map_name_error hbad
      exact ⟨e, by simp [cskel_maps_go, he, error_bind]⟩
    · cases hraw : get_raw_map_name m with
      | error e => exact ⟨e, by simp [cskel_maps_go, hraw, error_bind]⟩
      | ok s =>
        obtain ⟨e, he⟩ := ih ⟨m', hmem', hbad⟩
        exact ⟨e, by simp [cskel_maps_go, hraw, he, ok_bind, error_bind]⟩

/-- The constructor's program loop fails as soon as any program name is
bad. -/
theorem cskel_progs_go_error {progs : List BpfProg}
    (h : ∃ p ∈ progs, p.progName.isValidText = false) :
    ∃ e, cskel_progs_go progs = Except.error e := by
  induction progs with
  | nil => simp at h
  | cons p rest ih =>
    obtain ⟨p', hmem, hbad⟩ := h
    rcases List.mem_cons.mp hmem with heq | hmem'
    · subst heq
      obtain ⟨e, he⟩ := get_prog_name_error hbad
      exact ⟨e, by simp [cskel_progs_go, he, error_bind]⟩
    · cases hraw : get_prog_name p with
      | error e => exact ⟨e, by simp [cskel_progs_go, hraw, error_bind]⟩
      | ok s =>
        obtain ⟨e, he⟩ := ih ⟨p', hmem', hbad⟩
        exact ⟨e, by simp [cskel_progs_go, hraw, he, ok_bind, error_bind]⟩

/-- `gen_skel_c_skel_constructor` iterates every map and every program,
so one bad name anywhere fails it. -/
theorem gen_skel_c_skel_constructor_error (maps : List BpfMap)
    (progs : List BpfProg) (name : String)
    (h : (∃ m ∈ maps, m.rawName.isValidText = false) ∨
         (∃ p ∈ progs, p.progName.isValidText = false)) :
    ∃ e, gen_skel_c_skel_constructor maps progs name = Except.error e := by
  rcases h with hmap | hprog
  · obtain ⟨e, he⟩ := cskel_maps_go_error hmap
    exact ⟨e, by simp [gen_skel_c_skel_constructor, he, error_bind]⟩
  · cases hms : cskel_maps_go maps with
    | error e => exact ⟨e, by simp [gen_skel_c_skel_constructor, hms, error_bind]⟩
    | ok s =>
      obtain ⟨e, he⟩ := cskel_progs_go_error hprog
      exact ⟨e, by simp [gen_skel_c_skel_constructor, hms, he, ok_bind, error_bind]⟩

/-- C5: if any map or program of the opened object has a name that is
not retrievable as valid text (null pointer or invalid UTF-8), skeleton
generation for that artifact fails with an error — no placeholder name
is emitted. -/
theorem name_error_aborts (openObject : String → List Nat → Option BpfObject)
    (btfNew : String → List Nat → Except GenError (Option Btf))
    (raw_obj_name : String) (objBytes : List Nat) (obj : BpfObject)
    (hopen : openObject (raw_obj_name ++ "_bpf") objBytes = some obj)
    (hbad : (∃ m ∈ obj.maps, m.rawName.isValidText = false) ∨
            (∃ p ∈ obj.progs, p.progName.isValidText = false)) :
    ∃ e, gen_skel_contents openObject btfNew raw_obj_name objBytes = Except.error e := by
  cases hcap : capitalize_first_letter raw_obj_name with
  | none =>
    exact ⟨"panic: called Option::unwrap() on a None value",
      by simp [gen_skel_contents, hcap, error_bind]⟩
  | some obj_name =>
    obtain ⟨e, he⟩ :=
      gen_skel_c_skel_constructor_error obj.maps obj.progs (raw_obj_name ++ "_bpf") hbad
    exact ⟨e, by simp [gen_skel_contents, hcap, hopen, he, ok_bind, error_bind]⟩

/-- Witness for C5: an object holding one null-named map makes
generation fail. -/
theorem name_error_aborts_witness :
    ∃ e, gen_skel_contents exBadOpen exNoBtf "foo" [] = Except.error e :=
  name_error_aborts exBadOpen exNoBtf "foo" [] exBadObj rfl
    (Or.inl ⟨exBadNameMap, by simp [exBadObj], rfl⟩)

/-- C6: for an artifact with zero programs, no `Links` record type, no
`links` field, no `links` initializer in `load()`, and no `attach()`
operation appear in the generated bindings — each generator emits the
empty chunk. -/
theorem no_progs_no_links (obj_name : String) :
    gen_skel_link_defs [] obj_name = Except.ok "" ∧
    gen_skel_link_getter [] obj_name = Except.ok "" ∧
    skel_links_init [] obj_name = "" ∧
    gen_skel_attach [] obj_name = Except.ok "" :=
  ⟨rfl, rfl, rfl, rfl⟩

/-- C7: for an artifact with zero non-mmapable maps, neither the `Maps`
struct nor the `maps()` getter is generated, in both the opened and the
loaded skeleton. -/
theorem no_nonmmapable_no_maps_group (maps : List BpfMap) (obj_name : String)
    (h : maps.filter (fun map => !map_is_mmapable map) = []) :
    gen_skel_map_defs maps obj_name true = Except.ok "" ∧
    gen_skel_map_defs maps obj_name false = Except.ok "" ∧
    gen_skel_map_getter maps obj_name true = Except.ok "" ∧
    gen_skel_map_getter maps obj_name false = Except.ok "" := by
  refine ⟨?_, ?_, ?_, ?_⟩ <;>
    simp [gen_skel_map_defs, gen_skel_map_getter, h, pure_eq_ok]

/-- Witness for C7: a single mmapable read-only data map leaves no
non-mmapable maps, so no map-accessor group is generated. -/
theorem no_nonmmapable_no_maps_group_witness :
    gen_skel_map_defs [exRo] "Foo" true = Except.ok "" ∧
    gen_skel_map_defs [exRo] "Foo" false = Except.ok "" ∧
    gen_skel_map_getter [exRo] "Foo" true = Except.ok "" ∧
    gen_skel_map_getter [exRo] "Foo" false = Except.ok "" :=
  no_nonmmapable_no_maps_group [exRo] "Foo" (by decide)

/-- C8: skeleton generation is deterministic — for byte-identical
artifact bytes and identical logical name, `gen_skel_contents` (a pure
function of its inputs in this embedding, with the FFI object decoding
and BTF probe as fixed functions) yields byte-identical text. -/
theorem generation_deterministic
    (openObject : String → List Nat → Option BpfObject)
    (btfNew : String → List Nat → Except GenError (Option Btf))
    (n1 n2 : String) (b1 b2 : List Nat) (hn : n1 = n2) (hb : b1 = b2) :
    gen_skel_contents openObject btfNew n1 b1 =
      gen_skel_contents openObject btfNew n2 b2 := by
  rw [hn, hb]

/-- Witness for C8 at an empty artifact. -/
theorem generation_deterministic_witness :
    gen_skel_contents exEmptyOpen exNoBtf "foo" [] =
      gen_skel_contents exEmptyOpen exNoBtf "foo" [] :=
  generation_deterministic exEmptyOpen exNoBtf "foo" "foo" [] [] rfl rfl

/-- C9: when the artifact bytes carry no embedded type metadata
(`btf::Btf::new` returns `Ok(None)`), data-section definition
generation returns success emitting no type-definition modules. -/
theorem no_btf_is_success (obj_name : String) :
    gen_skel_datasec_defs (Except.ok none) obj_name = Except.ok "" := rfl

/-- C10: `gen_mods` on an empty artifact list returns success without
writing any file, while `gen_project` whose metadata discovery yields
zero artifacts exits with status 1 and writes no file. -/
theorem empty_artifact_handling
    (openObject : String → List Nat → Option BpfObject)
    (btfNew : String → List Nat → Except GenError (Option Btf))
    (fmt : String → Except GenError String)
    (readObj : List String → List Nat) (debug : Bool) :
    gen_mods fmt [] = Except.ok [] ∧
    gen_project openObject btfNew fmt readObj debug (Except.ok []) = (1, []) := by
  refine ⟨rfl, ?_⟩
  cases debug <;> rfl

end LibbpfGen
